import Mathlib

/-!
Verification of the ESP32 eBike tuning firmware core (repository
`src/firmware`): the supervisory state machine and tasks of `main.cpp`,
the CAN protocol handler (`modules/CANBusHandler.h`) and the sensor
emulator (`modules/SensorEmulator.h`).  The enumerations, structures and
the bodies of `loop`, `canBusTask`, `sensorTask` and `safetyTask` are
translated directly from the source; the member-function bodies of
`CANBusHandler` and `SensorEmulator` are not part of the repository
(only their declarations are), so those are modelled from the
specification, each marked `Modelled from the spec:` in its doc comment.
Machine integers (`uint8_t`, `uint16_t`, `uint32_t`) are modelled as
`Nat` with explicit reductions where overflow matters; `float` speeds
are modelled as `Rat`.
-/

namespace EBikeFirmware

/-- `SystemState` enum from `main.cpp` (lines 43-50). -/
inductive SystemState
  | SYSTEM_INIT
  | SYSTEM_NORMAL
  | SYSTEM_TUNING_ACTIVE
  | SYSTEM_STEALTH_MODE
  | SYSTEM_ERROR
  | SYSTEM_SHUTDOWN
deriving DecidableEq, Repr

/-- `OperatingMode` enum from `SensorEmulator.h` (lines 25-31). -/
inductive OperatingMode
  | MODE_DISABLED
  | MODE_ECO
  | MODE_SPORT
  | MODE_UNLIMITED
  | MODE_STEALTH
deriving DecidableEq, Repr

/-- `PerformanceMode` enum from `SensorEmulator.h` (lines 34-38). -/
inductive PerformanceMode
  | PERFORMANCE_NORMAL
  | PERFORMANCE_REDUCED
  | PERFORMANCE_MAXIMUM
deriving DecidableEq, Repr

/-- `SafetyStatus` as consumed by `safetyTask` in `main.cpp` (lines 94-105):
the two flags the task reads from `safetyMonitor.checkSystemHealth()`. -/
structure SafetyStatus where
  criticalError : Bool
  temperatureWarning : Bool
deriving DecidableEq, Repr

/-- `SignalStats` counters from `SensorEmulator.h` (lines 62-71); the float
telemetry fields (`averageFrequency`, `currentSpeed`, `maxSpeed`,
`signalQuality`) play no role in the claims about the counters and are
not carried here. -/
structure SignalStats where
  totalPulses : Nat
  validPulses : Nat
  droppedPulses : Nat
  lastPulseTime : Nat
deriving DecidableEq, Repr

/-- Private state of `SensorEmulator` relevant to the claims
(`SensorEmulator.h` lines 73-97): the operating/performance mode, the
`tuningActive` flag and the signal statistics. -/
structure EmulatorState where
  currentMode : OperatingMode
  performanceMode : PerformanceMode
  tuningActive : Bool
  stats : SignalStats
deriving DecidableEq, Repr

/-- Modelled from the spec: `SensorEmulator::disableTuning` (declared at
`SensorEmulator.h` line 154, body absent from the repository).  Per the
spec a critical error or shutdown "force[s] the Emulator into passthrough
(tuning disabled)" while "the `OperatingMode` field itself may remain"
its selected value: the call clears `tuningActive` and touches nothing
else. -/
def disableTuning (e : EmulatorState) : EmulatorState :=
  { e with tuningActive := false }

/-- Modelled from the spec: `SensorEmulator::setPerformanceMode` (declared
at `SensorEmulator.h` line 149, body absent): stores the requested
performance level. -/
def setPerformanceMode (m : PerformanceMode) (e : EmulatorState) : EmulatorState :=
  { e with performanceMode := m }

/-- `BoschSystemStatus` from `CANBusHandler.h` (lines 53-61). -/
structure BoschSystemStatus where
  isConnected : Bool
  currentSpeed : Nat
  motorPower : Nat
  batteryLevel : Nat
  assistLevel : Nat
  lastMessageTime : Nat
  errorCode : Nat
deriving DecidableEq, Repr

/-- `CANMessage` from `CANBusHandler.h` (lines 36-41): arbitration id,
length, 8 data bytes, timestamp.  The payload is a list of byte values. -/
structure CANMessage where
  id : Nat
  length : Nat
  data : List Nat
  timestamp : Nat
deriving DecidableEq, Repr

/-- Private state of `CANBusHandler` relevant to the claims
(`CANBusHandler.h` lines 63-70): the status snapshot plus the running
count of rejected frames surfaced through `hasErrors`. -/
structure HandlerState where
  systemStatus : BoschSystemStatus
  errorCount : Nat
deriving DecidableEq, Repr

/-- Bosch CAN message id constants from `CANBusHandler.h` (lines 19-24). -/
def BOSCH_SPEED_MSG_ID : Nat := 0x181

def BOSCH_MOTOR_MSG_ID : Nat := 0x182

def BOSCH_BATTERY_MSG_ID : Nat := 0x183

def BOSCH_DISPLAY_MSG_ID : Nat := 0x184

def BOSCH_DIAGNOSTIC_MSG_ID : Nat := 0x185

/-- An arbitration id is known when it matches one of the five Bosch
message kinds (`Speed`, `Motor`, `Battery`, `Display`, `Diagnostic`)
dispatched on in `CANBusHandler.h` lines 19-24. -/
def knownId (id : Nat) : Bool :=
  id = BOSCH_SPEED_MSG_ID || id = BOSCH_MOTOR_MSG_ID || id = BOSCH_BATTERY_MSG_ID ||
    id = BOSCH_DISPLAY_MSG_ID || id = BOSCH_DIAGNOSTIC_MSG_ID

/-- Modelled from the spec: `CANBusHandler::calculateChecksum` (declared at
`CANBusHandler.h` line 91, body absent from the repository).  A 16-bit
checksum computed over the payload bytes; the byte sum reduced modulo
2^16. -/
def calculateChecksum (payload : List Nat) : Nat :=
  payload.sum % 65536

/-- The first six data bytes of a frame carry the payload; the last two
carry the checksum (low byte first).  Modelled from the spec: the exact
byte split of the 8-byte frames is not in the repository; the spec only
fixes that the checksum is "computed over its payload". -/
def framePayload (msg : CANMessage) : List Nat :=
  msg.data.take 6

/-- The checksum stored in a frame: byte 6 is the low byte, byte 7 the
high byte. -/
def storedChecksum (msg : CANMessage) : Nat :=
  msg.data.getD 6 0 + 256 * msg.data.getD 7 0

/-- Modelled from the spec: `CANBusHandler::validateMessage` (declared at
`CANBusHandler.h` line 92, body absent): a frame is valid when it has
the full 8-byte layout and the checksum recomputed over its payload
matches the stored checksum. -/
def validateMessage (msg : CANMessage) : Bool :=
  msg.length = 8 && msg.data.length = 8 &&
    calculateChecksum (framePayload msg) = storedChecksum msg

/-- Modelled from the spec: `CANBusHandler::createSpeedMessage` (declared
at `CANBusHandler.h` line 86, body absent): builds the synthesized speed
report: the 16-bit speed in bytes 0-1 (little-endian), zero padding, and
the checksum over the six payload bytes in bytes 6-7. -/
def createSpeedMessage (speed : Nat) (now : Nat) : CANMessage :=
  let payload : List Nat := [speed % 256, speed / 256 % 256, 0, 0, 0, 0]
  let cks := calculateChecksum payload
  { id := BOSCH_SPEED_MSG_ID
    length := 8
    data := payload ++ [cks % 256, cks / 256]
    timestamp := now }

/-- Flip bit `k` of payload byte `i` of a frame (the corrupted-frame
round-trip of the spec's testable properties). -/
def flipPayloadBit (msg : CANMessage) (i k : Nat) : CANMessage :=
  { msg with data := msg.data.set i (msg.data.getD i 0 ^^^ 2 ^ k) }

/-- Modelled from the spec: the per-kind parse functions
(`parseSpeedMessage` .. `parseDiagnosticMessage`, `CANBusHandler.h`
lines 79-83, bodies absent): an accepted frame's fields are applied to
`SystemStatus`, the last-message time is refreshed and the connection is
marked alive. -/
def applyDecoded (now : Nat) (msg : CANMessage) (st : BoschSystemStatus) : BoschSystemStatus :=
  let st := { st with isConnected := true, lastMessageTime := now }
  if msg.id = BOSCH_SPEED_MSG_ID then
    { st with currentSpeed := msg.data.getD 0 0 + 256 * msg.data.getD 1 0 }
  else if msg.id = BOSCH_MOTOR_MSG_ID then
    { st with motorPower := msg.data.getD 0 0 }
  else if msg.id = BOSCH_BATTERY_MSG_ID then
    { st with batteryLevel := msg.data.getD 0 0 }
  else if msg.id = BOSCH_DISPLAY_MSG_ID then
    { st with assistLevel := msg.data.getD 0 0 }
  else
    { st with errorCode := msg.data.getD 0 0 }

/-- Modelled from the spec: the per-frame branch of
`CANBusHandler::processMessages` (declared at `CANBusHandler.h` line 107,
body absent).  A frame whose id matches no known kind, whose length is
not the known layout, or whose checksum does not validate is dropped and
counted as an error, leaving `SystemStatus` untouched; an accepted frame
is applied to `SystemStatus`. -/
def processFrame (now : Nat) (msg : CANMessage) (h : HandlerState) : HandlerState :=
  if !knownId msg.id || !validateMessage msg then
    { h with errorCount := h.errorCount + 1 }
  else
    { h with systemStatus := applyDecoded now msg h.systemStatus }

/-- Modelled from the spec: the staleness check of the heartbeat
bookkeeping (`tick`): the `connected` flag "flips false if no frame
arrives within a configured timeout window"; it is never flipped back to
true except by an accepted frame. -/
def tickStatus (now timeout : Nat) (h : HandlerState) : HandlerState :=
  if timeout < now - h.systemStatus.lastMessageTime then
    { h with systemStatus := { h.systemStatus with isConnected := false } }
  else
    h

/-- One cycle of CAN message handling: every pending received frame is
run through `processFrame` and then the staleness check recomputes the
`connected` flag at the current time.  Modelled from the spec
(`processMessages` / `tick` bodies absent). -/
def canCycle (now timeout : Nat) (msgs : List CANMessage) (h : HandlerState) : HandlerState :=
  tickStatus now timeout (msgs.foldl (fun a m => processFrame now m a) h)

/-- Modelled from the spec: the capture-validation check of the Emulator
("non-zero interval, within a plausible bounds check"): the instantaneous
pulse interval must be non-zero (this also rejects an out-of-order
timestamp, whose truncated interval is zero) and no longer than the
configured signal timeout. -/
def captureValid (signalTimeout interval : Nat) : Bool :=
  interval ≠ 0 && interval ≤ signalTimeout

/-- Modelled from the spec: the capture path of the Emulator (the
`processInputPulse` body, `SensorEmulator.h` line 104, is absent).  Every
capture increments `totalPulses` and resets the time-since-last-pulse
reference; a capture that passes validation increments `validPulses`,
one that fails increments `droppedPulses`. -/
def onCapture (signalTimeout t : Nat) (e : EmulatorState) : EmulatorState :=
  let interval := t - e.stats.lastPulseTime
  let s := e.stats
  if captureValid signalTimeout interval then
    { e with stats := { s with
        totalPulses := s.totalPulses + 1
        validPulses := s.validPulses + 1
        lastPulseTime := t } }
  else
    { e with stats := { s with
        totalPulses := s.totalPulses + 1
        droppedPulses := s.droppedPulses + 1
        lastPulseTime := t } }

/-- The Emulator's statistics at reset (`resetBuffers`): all counters
zero. -/
def initialEmulator : EmulatorState :=
  { currentMode := OperatingMode.MODE_DISABLED
    performanceMode := PerformanceMode.PERFORMANCE_NORMAL
    tuningActive := false
    stats := { totalPulses := 0, validPulses := 0, droppedPulses := 0, lastPulseTime := 0 } }

/-- Run a sequence of capture events (their timestamps) from the reset
state. -/
def runCaptures (signalTimeout : Nat) (ts : List Nat) : EmulatorState :=
  ts.foldl (fun e t => onCapture signalTimeout t e) initialEmulator

/-- Modelled from the spec: `SensorEmulator::processEcoMode` (declared at
`SensorEmulator.h` line 112, body absent): Eco "clamps target speed to a
low ceiling", so that output speed never exceeds the ceiling and input
speeds at or below the ceiling pass through unchanged. -/
def processEcoMode (ecoCeiling inputSpeed : Rat) : Rat :=
  min inputSpeed ecoCeiling

/-- The interrupt-to-task hand-off state of the Emulator: the
`volatile bool newPulseReceived` flag of `SensorEmulator.h` line 97,
together with ghost counters of how many edges the interrupt captured
and how many the task actually consumed. -/
structure PulseHandOff where
  newPulseReceived : Bool
  captured : Nat
  delivered : Nat
deriving DecidableEq, Repr

/-- An interleaving event of the capture hand-off: the hardware interrupt
fires (`inputPulseISR`), or the sensor task polls the flag
(`processSpeedSignal` checking `newPulseReceived`). -/
inductive PulseEvent
  | isrEdge
  | taskPoll
deriving DecidableEq, Repr

/-- Modelled from the spec: the hand-off dynamics over the plain shared
flag.  The ISR "does minimal work (record a timestamp, signal the Sensor
task)": it sets `newPulseReceived`.  The task poll consumes a pending
edge: when the flag is set it processes one edge and clears the flag;
otherwise it does nothing. -/
def handOffStep (s : PulseHandOff) : PulseEvent → PulseHandOff
  | PulseEvent.isrEdge =>
      { s with newPulseReceived := true, captured := s.captured + 1 }
  | PulseEvent.taskPoll =>
      if s.newPulseReceived then
        { s with newPulseReceived := false, delivered := s.delivered + 1 }
      else
        s

/-- Run an interleaving of ISR and task events from the idle hand-off
state. -/
def runHandOff (es : List PulseEvent) : PulseHandOff :=
  es.foldl handOffStep { newPulseReceived := false, captured := 0, delivered := 0 }

/-- Number of captured-but-not-yet-consumed edges the flag can still
represent: one when set, zero when clear. -/
def pendingEdges (s : PulseHandOff) : Nat :=
  if s.newPulseReceived then 1 else 0

/-- The process-wide state visible to the tasks of `main.cpp`: the single
`currentState` global plus the module singletons' states. -/
structure FullState where
  sysState : SystemState
  emu : EmulatorState
  handler : HandlerState
deriving DecidableEq, Repr

/-- The external configuration flags read by `loop` in `main.cpp`
(`configManager.isTuningEnabled()`, `configManager.isStealthModeEnabled()`). -/
structure ConfigFlags where
  tuningEnabled : Bool
  stealthEnabled : Bool
deriving DecidableEq, Repr

/-- Observable side effects of one cycle of a `main.cpp` task or of
`loop`: handler/emulator processing calls and the shutdown sequence. -/
inductive Action
  | ProcessMessages
  | SendHeartbeat
  | ProcessSpeedSignal
  | StealthModeRun
  | DisableTuning
  | SendShutdownFrame
  | Restart
deriving DecidableEq, BEq, Repr

/-- One cycle of `safetyTask` (`main.cpp` lines 90-109): the health status
is checked; on `criticalError` the task sets `currentState = SYSTEM_ERROR`
and calls `sensorEmulator.disableTuning()`; on `temperatureWarning` it
calls `sensorEmulator.setPerformanceMode(PERFORMANCE_REDUCED)`. -/
def safetyStep (st : SafetyStatus) (s : FullState) : FullState :=
  let s :=
    if st.criticalError then
      { s with sysState := SystemState.SYSTEM_ERROR, emu := disableTuning s.emu }
    else
      s
  if st.temperatureWarning then
    { s with emu := setPerformanceMode PerformanceMode.PERFORMANCE_REDUCED s.emu }
  else
    s

/-- One cycle of `canBusTask` (`main.cpp` lines 57-68): when
`currentState` is `SYSTEM_NORMAL` or `SYSTEM_TUNING_ACTIVE` the task runs
`canBusHandler.processMessages()` over the pending received frames and
`canBusHandler.sendHeartbeat()`; in every other state it does nothing.
`now` is the cycle time, `timeout` the heartbeat timeout window, `msgs`
the frames pending on the receive queue. -/
def canBusTaskStep (now timeout : Nat) (msgs : List CANMessage) (s : FullState) :
    FullState × List Action :=
  if s.sysState = SystemState.SYSTEM_NORMAL ∨ s.sysState = SystemState.SYSTEM_TUNING_ACTIVE then
    ({ s with handler := canCycle now timeout msgs s.handler },
      [Action.ProcessMessages, Action.SendHeartbeat])
  else
    (s, [])

/-- One cycle of `sensorTask` (`main.cpp` lines 73-85): in
`SYSTEM_TUNING_ACTIVE` the task runs `sensorEmulator.processSpeedSignal()`
(consuming the pending captures), in `SYSTEM_STEALTH_MODE` it runs
`sensorEmulator.stealthMode()`, otherwise nothing.  `captures` are the
pending capture timestamps, `signalTimeout` the validation bound. -/
def sensorTaskStep (signalTimeout : Nat) (captures : List Nat) (s : FullState) :
    FullState × List Action :=
  if s.sysState = SystemState.SYSTEM_TUNING_ACTIVE then
    ({ s with emu := captures.foldl (fun e t => onCapture signalTimeout t e) s.emu },
      [Action.ProcessSpeedSignal])
  else if s.sysState = SystemState.SYSTEM_STEALTH_MODE then
    (s, [Action.StealthModeRun])
  else
    (s, [])

/-- One iteration of `loop` (`main.cpp` lines 249-303): the supervisory
state machine switch on `currentState`, returning the next state and the
side effects performed.  `canRecover` is `safetyMonitor.canRecover()`.
In `SYSTEM_SHUTDOWN` the loop calls `sensorEmulator.disableTuning()`,
then `canBusHandler.sendShutdownMessage()`, then `ESP.restart()`. -/
def loopStep (cfg : ConfigFlags) (canRecover : Bool) (s : SystemState) :
    SystemState × List Action :=
  match s with
  | SystemState.SYSTEM_INIT => (SystemState.SYSTEM_NORMAL, [])
  | SystemState.SYSTEM_NORMAL =>
      if cfg.tuningEnabled then (SystemState.SYSTEM_TUNING_ACTIVE, [])
      else (SystemState.SYSTEM_NORMAL, [])
  | SystemState.SYSTEM_TUNING_ACTIVE =>
      if cfg.stealthEnabled then (SystemState.SYSTEM_STEALTH_MODE, [])
      else if !cfg.tuningEnabled then (SystemState.SYSTEM_NORMAL, [])
      else (SystemState.SYSTEM_TUNING_ACTIVE, [])
  | SystemState.SYSTEM_STEALTH_MODE =>
      if !cfg.stealthEnabled then (SystemState.SYSTEM_TUNING_ACTIVE, [])
      else (SystemState.SYSTEM_STEALTH_MODE, [])
  | SystemState.SYSTEM_ERROR =>
      if canRecover then (SystemState.SYSTEM_NORMAL, [])
      else (SystemState.SYSTEM_ERROR, [])
  | SystemState.SYSTEM_SHUTDOWN =>
      (SystemState.SYSTEM_SHUTDOWN,
        [Action.DisableTuning, Action.SendShutdownFrame, Action.Restart])

/-- A concrete full state used to instantiate theorems with hypotheses:
the system is in `SYSTEM_TUNING_ACTIVE` with tuning running in Sport
mode. -/
def sampleState : FullState :=
  { sysState := SystemState.SYSTEM_TUNING_ACTIVE
    emu :=
      { currentMode := OperatingMode.MODE_SPORT
        performanceMode := PerformanceMode.PERFORMANCE_NORMAL
        tuningActive := true
        stats := { totalPulses := 5, validPulses := 4, droppedPulses := 1, lastPulseTime := 100 } }
    handler :=
      { systemStatus :=
          { isConnected := true, currentSpeed := 20, motorPower := 50, batteryLevel := 80
            assistLevel := 2, lastMessageTime := 90, errorCode := 0 }
        errorCount := 0 } }

/-- A concrete full state in `SYSTEM_ERROR`, used to instantiate the
gating theorems. -/
def errorState : FullState :=
  { sampleState with sysState := SystemState.SYSTEM_ERROR }

/-- A concrete received frame whose arbitration id matches no known
Bosch message kind. -/
def badMsg : CANMessage :=
  { id := 0x200, length := 8, data := [0, 0, 0, 0, 0, 0, 0, 0], timestamp := 0 }

/-! ### Theorems -/

/-- Claim C1: whenever the Safety Monitor health check reports
`criticalError`, after that cycle of `safetyTask` the system state is
`SYSTEM_ERROR` and the Emulator tuning is disabled (forced into
passthrough), from every prior state including `SYSTEM_TUNING_ACTIVE`,
while the selected `OperatingMode` field itself is left unchanged. -/
theorem criticalError_forces_error_state (st : SafetyStatus) (s : FullState)
    (h : st.criticalError = true) :
    (safetyStep st s).sysState = SystemState.SYSTEM_ERROR ∧
      (safetyStep st s).emu.tuningActive = false ∧
      (safetyStep st s).emu.currentMode = s.emu.currentMode := by
  cases htw : st.temperatureWarning <;>
    simp [safetyStep, h, htw, disableTuning, setPerformanceMode]

/-- Concrete instantiation of C1: a critical error while the system is
`SYSTEM_TUNING_ACTIVE` with tuning on. -/
theorem criticalError_forces_error_state_witness :
    (safetyStep { criticalError := true, temperatureWarning := false } sampleState).sysState
        = SystemState.SYSTEM_ERROR ∧
      (safetyStep { criticalError := true, temperatureWarning := false } sampleState).emu.tuningActive
        = false ∧
      (safetyStep { criticalError := true, temperatureWarning := false } sampleState).emu.currentMode
        = sampleState.emu.currentMode :=
  criticalError_forces_error_state
    { criticalError := true, temperatureWarning := false } sampleState rfl

/-- Claim C2: the per-cycle supervisory step of `loop` realizes exactly
the transition rules of the spec, with the guards evaluated in the
listed order: `SYSTEM_NORMAL` moves to `SYSTEM_TUNING_ACTIVE` when the
tuning-enabled flag is true; `SYSTEM_TUNING_ACTIVE` moves to
`SYSTEM_STEALTH_MODE` when the stealth-enabled flag is true, else to
`SYSTEM_NORMAL` when the tuning-enabled flag is false;
`SYSTEM_STEALTH_MODE` moves to `SYSTEM_TUNING_ACTIVE` when the
stealth-enabled flag is false; `SYSTEM_ERROR` moves to `SYSTEM_NORMAL`
when the Safety Monitor reports recoverable; the only remaining
transition is the unconditional `SYSTEM_INIT` to `SYSTEM_NORMAL` of the
spec, and in every unmatched case the state is unchanged. -/
theorem loopStep_transition_rules (cfg : ConfigFlags) (canRecover : Bool) :
    (loopStep cfg canRecover SystemState.SYSTEM_NORMAL).1 =
        (if cfg.tuningEnabled then SystemState.SYSTEM_TUNING_ACTIVE
          else SystemState.SYSTEM_NORMAL) ∧
      (loopStep cfg canRecover SystemState.SYSTEM_TUNING_ACTIVE).1 =
        (if cfg.stealthEnabled then SystemState.SYSTEM_STEALTH_MODE
          else if cfg.tuningEnabled then SystemState.SYSTEM_TUNING_ACTIVE
          else SystemState.SYSTEM_NORMAL) ∧
      (loopStep cfg canRecover SystemState.SYSTEM_STEALTH_MODE).1 =
        (if cfg.stealthEnabled then SystemState.SYSTEM_STEALTH_MODE
          else SystemState.SYSTEM_TUNING_ACTIVE) ∧
      (loopStep cfg canRecover SystemState.SYSTEM_ERROR).1 =
        (if canRecover then SystemState.SYSTEM_NORMAL else SystemState.SYSTEM_ERROR) ∧
      (loopStep cfg canRecover SystemState.SYSTEM_INIT).1 = SystemState.SYSTEM_NORMAL ∧
      (loopStep cfg canRecover SystemState.SYSTEM_SHUTDOWN).1 = SystemState.SYSTEM_SHUTDOWN := by
  rcases cfg with ⟨t, se⟩
  cases t <;> cases se <;> cases canRecover <;>
    exact ⟨rfl, rfl, rfl, rfl, rfl, rfl⟩

/-- Claim C7: the `SYSTEM_SHUTDOWN` iteration of `loop` performs exactly
one disable-tuning action and exactly one shutdown-frame send, in that
order, followed by the device restart, and no other state performs any
of these actions, so the shutdown frame is sent exactly once per entry
into `SYSTEM_SHUTDOWN` (the restart ends execution). -/
theorem loopStep_shutdown_once (cfg : ConfigFlags) (canRecover : Bool) (s : SystemState)
    (h : s ≠ SystemState.SYSTEM_SHUTDOWN) :
    (loopStep cfg canRecover SystemState.SYSTEM_SHUTDOWN).2 =
        [Action.DisableTuning, Action.SendShutdownFrame, Action.Restart] ∧
      (loopStep cfg canRecover SystemState.SYSTEM_SHUTDOWN).2.count Action.DisableTuning = 1 ∧
      (loopStep cfg canRecover SystemState.SYSTEM_SHUTDOWN).2.count Action.SendShutdownFrame = 1 ∧
      (loopStep cfg canRecover s).2 = [] := by
  refine ⟨rfl, rfl, rfl, ?_⟩
  rcases cfg with ⟨t, se⟩
  cases s <;>
    first
      | exact absurd rfl h
      | cases t <;> cases se <;> cases canRecover <;> rfl

/-- Concrete instantiation of C7: the shutdown iteration against a
`SYSTEM_NORMAL` iteration. -/
theorem loopStep_shutdown_once_witness :
    (loopStep { tuningEnabled := false, stealthEnabled := false } false
          SystemState.SYSTEM_SHUTDOWN).2 =
        [Action.DisableTuning, Action.SendShutdownFrame, Action.Restart] ∧
      (loopStep { tuningEnabled := false, stealthEnabled := false } false
          SystemState.SYSTEM_SHUTDOWN).2.count Action.DisableTuning = 1 ∧
      (loopStep { tuningEnabled := false, stealthEnabled := false } false
          SystemState.SYSTEM_SHUTDOWN).2.count Action.SendShutdownFrame = 1 ∧
      (loopStep { tuningEnabled := false, stealthEnabled := false } false
          SystemState.SYSTEM_NORMAL).2 = [] :=
  loopStep_shutdown_once { tuningEnabled := false, stealthEnabled := false } false
    SystemState.SYSTEM_NORMAL (by decide)

/-- Claim C8 fails as stated: the claim includes the Safety Monitor task
among the components whose steps never change the top-level system
state, but `safetyTask` itself writes `currentState = SYSTEM_ERROR` on a
critical error (`main.cpp` line 98); here its step moves the state from
`SYSTEM_TUNING_ACTIVE` to `SYSTEM_ERROR`. -/
theorem safetyTask_changes_state_cex :
    (safetyStep { criticalError := true, temperatureWarning := false } sampleState).sysState
      ≠ sampleState.sysState := by
  decide

/-- Claim C8 amended: the Protocol Handler task and the Sensor Emulator
task never change the top-level system state; the Safety Monitor task
changes it exactly when the health check reports `criticalError`, and
then only to `SYSTEM_ERROR`; the supervisory `loop` is otherwise the
only writer. -/
theorem state_transition_authority (now timeout : Nat) (msgs : List CANMessage)
    (signalTimeout : Nat) (captures : List Nat) (st : SafetyStatus) (s : FullState) :
    (canBusTaskStep now timeout msgs s).1.sysState = s.sysState ∧
      (sensorTaskStep signalTimeout captures s).1.sysState = s.sysState ∧
      (safetyStep st s).sysState =
        (if st.criticalError then SystemState.SYSTEM_ERROR else s.sysState) := by
  refine ⟨?_, ?_, ?_⟩
  · unfold canBusTaskStep
    split <;> rfl
  · unfold sensorTaskStep
    split
    · rfl
    · split <;> rfl
  · cases hc : st.criticalError <;> cases htw : st.temperatureWarning <;>
      simp [safetyStep, hc, htw, disableTuning, setPerformanceMode]

/-- Claim C9: one cycle of `canBusTask` performs message processing and
heartbeat transmission exactly when the system state is `SYSTEM_NORMAL`
or `SYSTEM_TUNING_ACTIVE`; in `SYSTEM_STEALTH_MODE`, `SYSTEM_ERROR` and
`SYSTEM_SHUTDOWN` the cycle sends no heartbeat, processes no received
frame and leaves the whole state untouched. -/
theorem canBusTask_gated_by_state (now timeout : Nat) (msgs : List CANMessage) (s : FullState) :
    ((Action.ProcessMessages ∈ (canBusTaskStep now timeout msgs s).2 ∨
        Action.SendHeartbeat ∈ (canBusTaskStep now timeout msgs s).2) ↔
      (s.sysState = SystemState.SYSTEM_NORMAL ∨
        s.sysState = SystemState.SYSTEM_TUNING_ACTIVE)) ∧
      (s.sysState = SystemState.SYSTEM_STEALTH_MODE ∨
          s.sysState = SystemState.SYSTEM_ERROR ∨
          s.sysState = SystemState.SYSTEM_SHUTDOWN →
        canBusTaskStep now timeout msgs s = (s, [])) := by
  rcases s with ⟨st, emu, handler⟩
  cases st <;> simp [canBusTaskStep]

/-- Concrete instantiation of C9: in `SYSTEM_ERROR` the CAN bus task
cycle is a no-op. -/
theorem canBusTask_gated_by_state_witness :
    canBusTaskStep 0 0 [] errorState = (errorState, []) :=
  (canBusTask_gated_by_state 0 0 [] errorState).2 (Or.inr (Or.inl rfl))

/-- Every capture preserves the counter balance
`validPulses + droppedPulses = totalPulses`. -/
theorem captures_preserve_counter_sum (signalTimeout : Nat) (ts : List Nat) (e : EmulatorState)
    (h : e.stats.validPulses + e.stats.droppedPulses = e.stats.totalPulses) :
    (ts.foldl (fun a t => onCapture signalTimeout t a) e).stats.validPulses +
        (ts.foldl (fun a t => onCapture signalTimeout t a) e).stats.droppedPulses =
      (ts.foldl (fun a t => onCapture signalTimeout t a) e).stats.totalPulses := by
  induction ts generalizing e with
  | nil => exact h
  | cons t ts ih =>
      simp only [List.foldl_cons]
      apply ih
      by_cases hc : captureValid signalTimeout (t - e.stats.lastPulseTime) <;>
        simp [onCapture, hc] <;> omega

/-- Claim C5: after every sequence of capture events, including captures
with zero interval and out-of-order timestamps, the counters satisfy
`validPulses + droppedPulses = totalPulses`, and `validPulses`
increments exactly on the captures that pass validation. -/
theorem signalStats_counter_invariant (signalTimeout : Nat) (ts : List Nat)
    (e : EmulatorState) (t : Nat) :
    (runCaptures signalTimeout ts).stats.validPulses +
          (runCaptures signalTimeout ts).stats.droppedPulses =
        (runCaptures signalTimeout ts).stats.totalPulses ∧
      (onCapture signalTimeout t e).stats.validPulses =
        e.stats.validPulses +
          (if captureValid signalTimeout (t - e.stats.lastPulseTime) then 1 else 0) := by
  constructor
  · exact captures_preserve_counter_sum signalTimeout ts initialEmulator rfl
  · by_cases hc : captureValid signalTimeout (t - e.stats.lastPulseTime) <;>
      simp [onCapture, hc]

/-- Claim C6: in Eco mode with ceiling C, the output speed never exceeds
C for any input speed, and equals the input speed whenever the input
speed is at most C (identity below the ceiling). -/
theorem processEcoMode_ceiling (ecoCeiling inputSpeed : Rat) :
    processEcoMode ecoCeiling inputSpeed ≤ ecoCeiling ∧
      (inputSpeed ≤ ecoCeiling → processEcoMode ecoCeiling inputSpeed = inputSpeed) :=
  ⟨min_le_right _ _, fun h => min_eq_left h⟩

/-- Concrete instantiation of C6, the scenario of the spec: ceiling 25
km/h and a steady 20 km/h input pass through unchanged. -/
theorem processEcoMode_ceiling_witness :
    processEcoMode 25 20 ≤ 25 ∧ processEcoMode 25 20 = 20 :=
  ⟨(processEcoMode_ceiling 25 20).1, (processEcoMode_ceiling 25 20).2 (by norm_num)⟩

/-- Claim C10 fails as stated: the hand-off is the plain shared flag
`newPulseReceived` (`SensorEmulator.h` line 97), and two capture edges
arriving before the next task poll collapse into a single delivery: after
the interleaving ISR, ISR, poll, the consumed-plus-pending count is 1
while the captured count is 2, so an edge was lost. -/
theorem plain_flag_loses_edge_cex :
    ¬ ((runHandOff [PulseEvent.isrEdge, PulseEvent.isrEdge, PulseEvent.taskPoll]).delivered +
          pendingEdges (runHandOff [PulseEvent.isrEdge, PulseEvent.isrEdge, PulseEvent.taskPoll]) =
        (runHandOff [PulseEvent.isrEdge, PulseEvent.isrEdge, PulseEvent.taskPoll]).captured) := by
  decide

/-- The flag hand-off never over-delivers: the consumed-plus-pending
count never exceeds the captured count. -/
theorem handOff_never_over_delivers (es : List PulseEvent) (s : PulseHandOff)
    (h : s.delivered + pendingEdges s ≤ s.captured) :
    (es.foldl handOffStep s).delivered + pendingEdges (es.foldl handOffStep s) ≤
      (es.foldl handOffStep s).captured := by
  induction es generalizing s with
  | nil => exact h
  | cons e es ih =>
      simp only [List.foldl_cons]
      apply ih
      cases e with
      | isrEdge =>
          cases hf : s.newPulseReceived <;>
            simp [handOffStep, pendingEdges, hf] at h ⊢ <;> omega
      | taskPoll =>
          cases hf : s.newPulseReceived <;>
            simp [handOffStep, pendingEdges, hf] at h ⊢ <;> omega

/-- Claim C10 amended: the interrupt-to-task hand-off of captured pulse
edges is a plain shared flag, not a single-slot signal or lock-free
queue; with it no captured edge is ever duplicated (the consumed count
never exceeds the captured count), but edges can be lost under
preemption: whenever two ISR captures occur before the next task poll,
the two captures produce a single delivery. -/
theorem handOff_no_duplication_but_lossy (es : List PulseEvent) (s : PulseHandOff) :
    (runHandOff es).delivered + pendingEdges (runHandOff es) ≤ (runHandOff es).captured ∧
      ([PulseEvent.isrEdge, PulseEvent.isrEdge, PulseEvent.taskPoll].foldl handOffStep s).delivered
          = s.delivered + 1 ∧
      ([PulseEvent.isrEdge, PulseEvent.isrEdge, PulseEvent.taskPoll].foldl handOffStep s).captured
          = s.captured + 2 := by
  refine ⟨handOff_never_over_delivers es _ (by simp [pendingEdges]), ?_, ?_⟩ <;>
    simp [handOffStep]

/-- Flipping a bit cannot leave a number unchanged: xor with a power of
two is never the identity. -/
theorem xor_two_pow_ne (a k : Nat) : (a ^^^ 2 ^ k) ≠ a := by
  intro h
  have h0 : a ^^^ 2 ^ k = a ^^^ 0 := by rw [h, Nat.xor_zero]
  have h1 : (2 : Nat) ^ k = 0 := Nat.xor_right_inj.mp h0
  have hp : 0 < (2 : Nat) ^ k := pow_pos (by norm_num) k
  omega

/-- Xor of a byte value with a single-byte bit mask stays a byte value. -/
theorem xor_lt_256 (a k : Nat) (ha : a < 256) (hk : k < 8) : (a ^^^ 2 ^ k) < 256 := by
  have h2k : (2 : Nat) ^ k < 2 ^ 8 := Nat.pow_lt_pow_right (by norm_num) hk
  have ha8 : a < 2 ^ 8 := by norm_num at ha ⊢; omega
  have := Nat.bitwise_lt_two_pow (f := bne) ha8 h2k
  simpa using this

/-- Two sums below the checksum modulus with different values have
different stored-checksum decompositions. -/
theorem checksum_decomp_ne (x y : Nat) (hx : x < 65536) (hy : y < 65536) (hne : x ≠ y) :
    ¬x % 65536 = y % 65536 % 256 + 256 * (y % 65536 / 256) := by
  rw [Nat.mod_eq_of_lt hy, Nat.mod_add_div, Nat.mod_eq_of_lt hx]
  exact hne

/-- A single payload bit flip in an encoded speed frame always breaks
checksum validation. -/
theorem checksum_detects_bitflip (speed t i k : Nat) (hi : i < 6) (hk : k < 8) :
    validateMessage (flipPayloadBit (createSpeedMessage speed t) i k) = false := by
  have ha : speed % 256 < 256 := Nat.mod_lt _ (by norm_num)
  have hb : speed / 256 % 256 < 256 := Nat.mod_lt _ (by norm_num)
  have hp : 0 < (2 : Nat) ^ k := pow_pos (by norm_num) k
  have hpk : (2 : Nat) ^ k ≤ 128 := by
    calc (2 : Nat) ^ k ≤ 2 ^ 7 := Nat.pow_le_pow_right (by norm_num) (by omega)
      _ = 128 := by norm_num
  have hxa := xor_lt_256 (speed % 256) k ha hk
  have hxb := xor_lt_256 (speed / 256 % 256) k hb hk
  have hna := xor_two_pow_ne (speed % 256) k
  have hnb := xor_two_pow_ne (speed / 256 % 256) k
  interval_cases i <;>
    simp [validateMessage, flipPayloadBit, createSpeedMessage, calculateChecksum, framePayload,
      storedChecksum] <;>
    exact checksum_decomp_ne _ _ (by omega) (by omega) (by omega)

/-- Claim C3: a received frame whose arbitration id matches no known
kind or whose checksum does not validate is dropped and counted as an
error, the `SystemStatus` snapshot is left completely unchanged, no
system-wide state transition occurs (the CAN task preserves
`currentState`), and no fatal error is raised (the handler step is total
and only bumps the error counter); in particular a frame obtained by
encoding a speed report and then flipping any single payload bit fails
validation and never mutates `SystemStatus`. -/
theorem invalid_frame_dropped_and_counted (now : Nat) (msg : CANMessage) (h : HandlerState)
    (speed t i k : Nat) (h2 : HandlerState) (fs : FullState)
    (hbad : knownId msg.id = false ∨ validateMessage msg = false)
    (hi : i < 6) (hk : k < 8) :
    processFrame now msg h = { h with errorCount := h.errorCount + 1 } ∧
      (processFrame now msg h).systemStatus = h.systemStatus ∧
      (canBusTaskStep now 0 [msg] fs).1.sysState = fs.sysState ∧
      validateMessage (flipPayloadBit (createSpeedMessage speed t) i k) = false ∧
      processFrame now (flipPayloadBit (createSpeedMessage speed t) i k) h2 =
        { h2 with errorCount := h2.errorCount + 1 } := by
  have hrej : ∀ (m : CANMessage) (g : HandlerState),
      knownId m.id = false ∨ validateMessage m = false →
      processFrame now m g = { g with errorCount := g.errorCount + 1 } := by
    intro m g hm
    rcases hm with hm | hm <;> simp [processFrame, hm]
  have hflip := checksum_detects_bitflip speed t i k hi hk
  refine ⟨hrej msg h hbad, ?_, ?_, hflip, hrej _ h2 (Or.inr hflip)⟩
  · rw [hrej msg h hbad]
  · unfold canBusTaskStep
    split <;> rfl

/-- Concrete instantiation of C3: an unknown-id frame against the sample
handler state, and the encoded 20 km/h speed frame with its lowest
payload bit flipped. -/
theorem invalid_frame_dropped_and_counted_witness :
    processFrame 0 badMsg sampleState.handler =
        { sampleState.handler with errorCount := sampleState.handler.errorCount + 1 } ∧
      (processFrame 0 badMsg sampleState.handler).systemStatus =
        sampleState.handler.systemStatus ∧
      (canBusTaskStep 0 0 [badMsg] sampleState).1.sysState = sampleState.sysState ∧
      validateMessage (flipPayloadBit (createSpeedMessage 20 0) 0 0) = false ∧
      processFrame 0 (flipPayloadBit (createSpeedMessage 20 0) 0 0) sampleState.handler =
        { sampleState.handler with errorCount := sampleState.handler.errorCount + 1 } :=
  invalid_frame_dropped_and_counted 0 badMsg sampleState.handler 20 0 0 0
    sampleState.handler sampleState (Or.inl (by decide)) (by decide) (by decide)

/-- Claim C4: at the end of every CAN handling cycle the `connected`
flag is false whenever the elapsed time since the last accepted frame
exceeds the heartbeat timeout window, regardless of prior successful
decodes; the staleness check flips the flag to false exactly when the
window is exceeded (so it flips within one window of the last accepted
frame) and leaves it untouched inside the window (no flapping), and an
accepted frame flips it back to true and refreshes the last-message
time. -/
theorem connected_tracks_heartbeat_window (now timeout t : Nat) (msgs : List CANMessage)
    (h : HandlerState) (msg : CANMessage)
    (hid : knownId msg.id = true) (hval : validateMessage msg = true) :
    ((canCycle now timeout msgs h).systemStatus.isConnected = true →
        now - (canCycle now timeout msgs h).systemStatus.lastMessageTime ≤ timeout) ∧
      (timeout < now - h.systemStatus.lastMessageTime →
        (tickStatus now timeout h).systemStatus.isConnected = false) ∧
      (now - h.systemStatus.lastMessageTime ≤ timeout →
        (tickStatus now timeout h).systemStatus.isConnected =
          h.systemStatus.isConnected) ∧
      (processFrame t msg h).systemStatus.isConnected = true ∧
      (processFrame t msg h).systemStatus.lastMessageTime = t := by
  have hcond : (!knownId msg.id || !validateMessage msg) = false := by simp [hid, hval]
  have hacc : (processFrame t msg h).systemStatus.isConnected = true ∧
      (processFrame t msg h).systemStatus.lastMessageTime = t := by
    simp only [processFrame, hcond, Bool.false_eq_true, if_false, applyDecoded]
    constructor <;> (split_ifs <;> rfl)
  refine ⟨?_, ?_, ?_, hacc.1, hacc.2⟩
  · intro hconn
    by_cases hlt : timeout <
        now - (msgs.foldl (fun a m => processFrame now m a) h).systemStatus.lastMessageTime
    · exfalso
      have hoff : (canCycle now timeout msgs h).systemStatus.isConnected = false := by
        simp [canCycle, tickStatus, hlt]
      rw [hoff] at hconn
      exact Bool.false_ne_true hconn
    · have heq : canCycle now timeout msgs h =
          msgs.foldl (fun a m => processFrame now m a) h := by
        simp [canCycle, tickStatus, hlt]
      rw [heq]
      omega
  · intro hlt
    simp [tickStatus, hlt]
  · intro hle
    simp [tickStatus, Nat.not_lt.mpr hle]

/-- Concrete instantiation of C4: with the sample handler state (last
accepted frame at time 90) a staleness check at time 200 with window 50
drops the connection, one at time 100 keeps it, and accepting an encoded
speed frame at time 100 reconnects. -/
theorem connected_tracks_heartbeat_window_witness :
    (tickStatus 200 50 sampleState.handler).systemStatus.isConnected = false ∧
      (tickStatus 100 50 sampleState.handler).systemStatus.isConnected =
        sampleState.handler.systemStatus.isConnected ∧
      (processFrame 100 (createSpeedMessage 20 100) sampleState.handler).systemStatus.isConnected
          = true ∧
      (processFrame 100 (createSpeedMessage 20 100) sampleState.handler).systemStatus.lastMessageTime
          = 100 :=
  ⟨(connected_tracks_heartbeat_window 200 50 100 [] sampleState.handler
      (createSpeedMessage 20 100) (by decide) (by decide)).2.1 (by decide),
    (connected_tracks_heartbeat_window 100 50 100 [] sampleState.handler
      (createSpeedMessage 20 100) (by decide) (by decide)).2.2.1 (by decide),
    (connected_tracks_heartbeat_window 100 50 100 [] sampleState.handler
      (createSpeedMessage 20 100) (by decide) (by decide)).2.2.2.1,
    (connected_tracks_heartbeat_window 100 50 100 [] sampleState.handler
      (createSpeedMessage 20 100) (by decide) (by decide)).2.2.2.2⟩

end EBikeFirmware
